import Mathlib

/-!
Shallow embedding, in Lean 4, of the core services of the
project-orchestrator repository, together with theorems checking the
natural-language specification against the code.

Embedded components:
* `src/services/topic_manager.py` — topic boundary detection and the
  active topic query;
* `src/agent/tools.py` — `get_conversation_history`;
* `src/services/approval_gate.py` — approval gate resolution;
* `src/scar/client.py` — `ScarClient.wait_for_completion` (the quiescence
  poll loop);
* `src/services/scar_executor.py` — `execute_scar_command`;
* `src/services/workflow_orchestrator.py` — `advance_workflow` over the
  fixed `WORKFLOW_PHASES` pipeline.

Database rows are modelled as Lean structures, the database as lists of
rows carried in an explicit state; timestamps are UTC seconds as `Int`
(wall-clock) or `Nat` (the monotonic clock of the poll loop); the network
is modelled by an explicit outcome value passed to the function that would
perform the call.
-/

namespace ProjOrch

/-! ## Topic segmentation (`src/services/topic_manager.py`) -/

/-- The characters of a message after Python's `user_message.lower()`,
modelled per-character with `Char.toLower`. -/
def lowerChars (s : String) : List Char := s.data.map Char.toLower

/-- Substring test, mirroring Python's `phrase in user_lower`: does
`needle` occur contiguously inside the second list? -/
def containsSub (needle : List Char) : List Char → Bool
  | [] => needle.isPrefixOf []
  | b :: bs => needle.isPrefixOf (b :: bs) || containsSub needle bs

/-- The topic-switch phrase list of `should_create_new_topic`
(src/services/topic_manager.py, lines 99-109), in source order. -/
def topic_switch_phrases : List String :=
  [ "new topic",
    "different topic",
    "let's discuss",
    "lets discuss",
    "switching to",
    "moving on to",
    "but we weren't discussing",
    "but we werent discussing",
    "we were talking about" ]

/-- `should_create_new_topic` (src/services/topic_manager.py, lines 82-143).
`lastMessageTime` is `some t` (UTC seconds) when the project has an active
topic whose last message has timestamp `t` (a naive timestamp is read as
UTC by the code before comparison), and `none` when there is no active
topic or the active topic has no message; `now` is the current UTC time in
seconds. Returns whether a new topic should be created. -/
def should_create_new_topic (user_message : String)
    (lastMessageTime : Option Int) (now : Int) : Bool :=
  if topic_switch_phrases.any (fun p => containsSub p.data (lowerChars user_message)) then
    true
  else
    match lastMessageTime with
    | some t => decide (now - t > 3600)
    | none => false

/-- The spec's list of ten boundary phrases for `shouldSwitch`, in the
spec's order (§4.3). Kept separate from `topic_switch_phrases` so the two
can be compared. -/
def spec_boundary_phrases : List String :=
  [ "but we weren't discussing",
    "but we werent discussing",
    "we were talking about",
    "not about that",
    "different topic",
    "let's discuss",
    "lets discuss",
    "switching topics",
    "new topic",
    "back to" ]

/-- Modelled from the spec's words (§4.3 `shouldSwitch`): same decision
shape as `should_create_new_topic` but over the spec's ten boundary
phrases. Exists only to compare the spec's description with the code. -/
def shouldSwitch_specVersion (user_message : String)
    (lastMessageTime : Option Int) (now : Int) : Bool :=
  if spec_boundary_phrases.any (fun p => containsSub p.data (lowerChars user_message)) then
    true
  else
    match lastMessageTime with
    | some t => decide (now - t > 3600)
    | none => false

/-! ## Conversation history (`src/agent/tools.py`, `get_conversation_history`) -/

/-- Row of the `conversation_topics` table (the fields the embedded queries
read). -/
structure ConversationTopic where
  id : Nat
  project_id : Nat
  started_at : Int
  is_active : Bool
deriving DecidableEq, Repr

/-- Row of the `conversation_messages` table (the fields the embedded
queries read). -/
structure ConversationMessage where
  id : Nat
  project_id : Nat
  topic_id : Option Nat
  timestamp : Int
  content : String
deriving DecidableEq, Repr

/-- `get_active_topic` (src/services/topic_manager.py, lines 20-39): the
topics of the project flagged active, ordered by `started_at` descending,
first row or none. -/
def get_active_topic (topics : List ConversationTopic) (project_id : Nat) :
    Option ConversationTopic :=
  ((topics.filter (fun t => t.project_id == project_id && t.is_active)).mergeSort
      (fun a b => decide (b.started_at ≤ a.started_at))).head?

/-- The `order_by(ConversationMessage.timestamp.asc())` of the history
query. -/
def sortByTimestamp (l : List ConversationMessage) : List ConversationMessage :=
  l.mergeSort (fun a b => decide (a.timestamp ≤ b.timestamp))

/-- `get_conversation_history` (src/agent/tools.py, lines 137-177): filter
by project, then by the explicit `topic_id` if given, else by the active
topic when `active_topic_only` (empty when there is no active topic),
order by timestamp ascending, truncate to `limit`. -/
def get_conversation_history (msgs : List ConversationMessage)
    (topics : List ConversationTopic) (project_id : Nat) (limit : Nat)
    (topic_id : Option Nat) (active_topic_only : Bool) :
    List ConversationMessage :=
  let base := msgs.filter (fun m => m.project_id == project_id)
  match topic_id with
  | some tid => (sortByTimestamp (base.filter (fun m => m.topic_id == some tid))).take limit
  | none =>
    if active_topic_only then
      match get_active_topic topics project_id with
      | some t =>
          (sortByTimestamp (base.filter (fun m => m.topic_id == some t.id))).take limit
      | none => []
    else
      (sortByTimestamp base).take limit

/-! ## Approval gates (`src/services/approval_gate.py`) -/

/-- `GateStatus` of src/database/models.py. -/
inductive GateStatus where
  | pending
  | approved
  | rejected
  | expired
deriving DecidableEq, Repr

/-- The `.value` string of a `GateStatus` member. -/
def GateStatus.value : GateStatus → String
  | .pending => "PENDING"
  | .approved => "APPROVED"
  | .rejected => "REJECTED"
  | .expired => "EXPIRED"

/-- The mutable columns of an `ApprovalGate` row that resolution touches. -/
structure GateState where
  status : GateStatus
  approver_notes : Option String
  approved_at : Option Int
deriving DecidableEq, Repr

/-- Outcome of one resolution call on a gate: the stored row after the
call, and the `ValueError` message if the call raised (a raise happens
before any write, so on error the stored row is the input row). -/
structure ResolveOutcome where
  gate : GateState
  error : Option String
deriving DecidableEq, Repr

/-- `approve_gate` (src/services/approval_gate.py, lines 73-105): raises
`ValueError` unless the gate is Pending; otherwise sets status Approved,
records the resolution time, and stores the notes when they are a
non-empty string (Python's `if approver_notes:` also skips `""`). -/
def approve_gate (now : Int) (approver_notes : Option String) (g : GateState) :
    ResolveOutcome :=
  if g.status ≠ GateStatus.pending then
    { gate := g, error := some ("Gate already " ++ g.status.value) }
  else
    { gate :=
        { status := GateStatus.approved
          approved_at := some now
          approver_notes :=
            match approver_notes with
            | some n => if n = "" then g.approver_notes else some n
            | none => g.approver_notes }
      error := none }

/-- `reject_gate` (src/services/approval_gate.py, lines 108-141): raises
`ValueError` unless the gate is Pending; otherwise sets status Rejected,
records the resolution time and stores the reason as the notes. -/
def reject_gate (now : Int) (reason : String) (g : GateState) : ResolveOutcome :=
  if g.status ≠ GateStatus.pending then
    { gate := g, error := some ("Gate already " ++ g.status.value) }
  else
    { gate :=
        { status := GateStatus.rejected
          approved_at := some now
          approver_notes := some reason }
      error := none }

/-- The early-exit guard of `handle_approval_response`
(src/services/workflow_orchestrator.py, lines 317-338): when the gate is
not Pending it returns `(False, "Gate already <status>")` without touching
the gate; the rest of the function (resolution plus workflow continuation,
whose result is the parameter `continue_result`) only runs on a Pending
gate. -/
def handle_approval_response (g : GateState) (approved : Bool) (now : Int)
    (notes : Option String) (continue_result : Bool × String) :
    (Bool × String) × GateState :=
  if g.status ≠ GateStatus.pending then
    ((false, "Gate already " ++ g.status.value), g)
  else if approved then
    ((continue_result.1, "Approval granted. Continuing workflow...\n" ++ continue_result.2),
      (approve_gate now notes g).gate)
  else
    ((false, "Approval rejected. Workflow paused."),
      (reject_gate now (notes.getD "User rejected") g).gate)

/-- A fresh Pending gate, as `create_approval_gate` writes one. -/
def examplePendingGate : GateState :=
  ⟨GateStatus.pending, none, none⟩

/-- The stored row after `approve_gate 10 (some "ok")` on
`examplePendingGate`. -/
def exampleApprovedGate : GateState :=
  ⟨GateStatus.approved, some "ok", some 10⟩

/-! ## SCAR client quiescence poll loop (`src/scar/client.py`, lines 213-289)

The loop is embedded over an abstract poll trace `counts : Nat → Nat`
(the message count the k-th poll observes) and an idealized monotonic
clock in which the k-th poll starts at elapsed time `k * pollInterval`
seconds (the sleeps dominate; request time is idealized to zero, as in the
spec's quiescence simulations). The loop runs on fuel; the entry point
supplies `timeout / pollInterval + 2` units, which is more than the
number of polls the deadline admits, and when fuel would run out the
deadline has already passed and the same `timedOut (k * pollInterval)`
value is returned that the deadline check would produce. -/

/-- Result of `wait_for_completion`: quiescence reached (after how many
polls, with what final message count), or `TimeoutError` with the elapsed
time it reports. -/
inductive WaitResult where
  | completed (polls : Nat) (messageCount : Nat)
  | timedOut (elapsed : Nat)
deriving DecidableEq, Repr

/-- The `while True` body of `wait_for_completion`: check the deadline,
poll, reset the stability counter on growth, increment it otherwise,
return once it reaches 2, else sleep and loop. -/
def wait_go (counts : Nat → Nat) (timeout pollInterval : Nat) :
    Nat → Nat → Nat → Nat → WaitResult
  | 0, k, _, _ => WaitResult.timedOut (k * pollInterval)
  | fuel + 1, k, prev, stable =>
    if timeout ≤ k * pollInterval then
      WaitResult.timedOut (k * pollInterval)
    else
      if prev < counts k then
        wait_go counts timeout pollInterval fuel (k + 1) (counts k) 0
      else if 2 ≤ stable + 1 then
        WaitResult.completed (k + 1) (counts k)
      else
        wait_go counts timeout pollInterval fuel (k + 1) prev (stable + 1)

/-- `ScarClient.wait_for_completion`: start at poll 0 with
`previous_message_count = 0` and `stable_count = 0`. -/
def wait_for_completion (counts : Nat → Nat) (timeout pollInterval : Nat) : WaitResult :=
  wait_go counts timeout pollInterval (timeout / pollInterval + 2) 0 0 0

/-- One update of `(previous_message_count, stable_count)` as the spec
describes it: on growth reset the streak and remember the new count,
otherwise increment the streak. -/
def streakStep (prev stable cur : Nat) : Nat × Nat :=
  if prev < cur then (cur, 0) else (prev, stable + 1)

/-! ## SCAR command execution (`src/services/scar_executor.py`, lines 47-233) -/

/-- `ExecutionStatus` of src/database/models.py. -/
inductive ExecutionStatus where
  | queued
  | running
  | completed
  | failed
deriving DecidableEq, Repr

/-- The terminal columns of a `ScarCommandExecution` row as
`execute_scar_command` leaves them (`completed_at_set` records that
`completed_at` was written). -/
structure ScarCommandExecution where
  status : ExecutionStatus
  output : Option String
  error : Option String
  completed_at_set : Bool
deriving DecidableEq, Repr

/-- What the SCAR client interaction inside `execute_scar_command` does:
returns the completed command's messages, or raises
`httpx.ConnectError`, `TimeoutError`, or any other exception. -/
inductive ScarOutcome where
  | ok (messages : List String)
  | connectError (detail : String)
  | timeoutError (detail : String)
  | otherError (detail : String)
deriving DecidableEq, Repr

/-- `CommandResult` of src/services/scar_executor.py (the
`duration_seconds` field, pure wall-clock measurement, is not modelled). -/
structure CommandResult where
  success : Bool
  output : String
  error : Option String
deriving DecidableEq, Repr

/-- The error text of the `httpx.ConnectError` handler (line 161-ish):
`f"SCAR is not available. Ensure SCAR is running at {settings.scar_base_url}"`. -/
def connectivity_error_msg (baseUrl : String) : String :=
  "SCAR is not available. Ensure SCAR is running at " ++ baseUrl

/-- The error text of the `TimeoutError` handler:
`f"SCAR command timed out after {duration:.1f}s: {str(e)}"` with the
formatted duration abstracted as a string. -/
def timeout_error_msg (durationStr detail : String) : String :=
  "SCAR command timed out after " ++ durationStr ++ "s: " ++ detail

/-- The error text of the generic `Exception` handler:
`f"SCAR command failed: {str(e)}"`. -/
def generic_error_msg (detail : String) : String :=
  "SCAR command failed: " ++ detail

/-- `execute_scar_command` (src/services/scar_executor.py, lines 47-233):
early `(success=False)` return when the project is missing or has no
GitHub repo (no execution row); otherwise an execution row is created and
driven to Completed with the joined output, or — on `ConnectError`,
`TimeoutError` or any other exception — to Failed carrying the handler's
error text, which is also returned in the `CommandResult`. -/
def execute_scar_command (repoConfigured : Bool) (outcome : ScarOutcome)
    (baseUrl durationStr : String) : Option ScarCommandExecution × CommandResult :=
  if repoConfigured = false then
    (none, ⟨false, "", some "Project not found or no GitHub repo configured"⟩)
  else
    match outcome with
    | ScarOutcome.ok msgs =>
        (some ⟨ExecutionStatus.completed, some (String.intercalate "\n" msgs), none, true⟩,
         ⟨true, String.intercalate "\n" msgs, none⟩)
    | ScarOutcome.connectError _ =>
        (some ⟨ExecutionStatus.failed, none, some (connectivity_error_msg baseUrl), true⟩,
         ⟨false, "", some (connectivity_error_msg baseUrl)⟩)
    | ScarOutcome.timeoutError detail =>
        (some ⟨ExecutionStatus.failed, none, some (timeout_error_msg durationStr detail), true⟩,
         ⟨false, "", some (timeout_error_msg durationStr detail)⟩)
    | ScarOutcome.otherError detail =>
        (some ⟨ExecutionStatus.failed, none, some (generic_error_msg detail), true⟩,
         ⟨false, "", some (generic_error_msg detail)⟩)

/-! ## Workflow orchestration (`src/services/workflow_orchestrator.py`) -/

/-- `ScarCommand` of src/services/scar_executor.py. -/
inductive ScarCommand where
  | prime
  | plan_feature_github
  | execute_github
  | validate
deriving DecidableEq, Repr

/-- The `.value` string of a `ScarCommand` member. -/
def ScarCommand.value : ScarCommand → String
  | ScarCommand.prime => "prime"
  | ScarCommand.plan_feature_github => "plan-feature-github"
  | ScarCommand.execute_github => "execute-github"
  | ScarCommand.validate => "validate"

/-- `GateType` of src/database/models.py. -/
inductive GateType where
  | vision_doc
  | phase_start
  | phase_complete
  | error_resolution
deriving DecidableEq, Repr

/-- `PhaseStatus` of src/database/models.py. -/
inductive PhaseStatus where
  | pending
  | in_progress
  | completed
  | failed
  | blocked
deriving DecidableEq, Repr

/-- `ProjectStatus` of src/database/models.py. -/
inductive ProjectStatus where
  | brainstorming
  | vision_review
  | planning
  | in_progress
  | paused
  | completed
deriving DecidableEq, Repr

/-- `PhaseConfig` of src/services/workflow_orchestrator.py. -/
structure PhaseConfig where
  number : Nat
  name : String
  description : String
  scar_command : Option ScarCommand := none
  requires_approval : Bool := false
  approval_gate_type : Option GateType := none
deriving DecidableEq, Repr

/-- The fixed `WORKFLOW_PHASES` pipeline (src/services/workflow_orchestrator.py,
lines 53-92). -/
def WORKFLOW_PHASES : List PhaseConfig :=
  [ ⟨1, "Vision Document Review", "Review and approve the generated vision document",
      none, true, some GateType.vision_doc⟩,
    ⟨2, "Prime Context", "Load complete project context into SCAR",
      some ScarCommand.prime, false, none⟩,
    ⟨3, "Plan Feature", "Create detailed implementation plan",
      some ScarCommand.plan_feature_github, true, some GateType.phase_start⟩,
    ⟨4, "Execute Implementation", "Implement the planned feature",
      some ScarCommand.execute_github, false, none⟩,
    ⟨5, "Validate & Test", "Run tests and validate implementation",
      some ScarCommand.validate, true, some GateType.phase_complete⟩ ]

/-- The columns of a `WorkflowPhase` row that `advance_workflow` writes. -/
structure WorkflowPhase where
  phase_number : Nat
  name : String
  description : String
  scar_command : Option String
  status : PhaseStatus
  error_message : Option String := none
deriving DecidableEq, Repr

/-- The columns of an `ApprovalGate` row that `create_approval_gate`
writes (the context payload is not modelled). -/
structure ApprovalGateRow where
  gate_type : GateType
  question : String
  status : GateStatus
deriving DecidableEq, Repr

/-- The project-scoped database state `advance_workflow` reads and
writes: the project's status, whether it has a GitHub repo configured,
and the project's phases, gates and command executions in creation
order. -/
structure OrchState where
  projectStatus : ProjectStatus
  repoConfigured : Bool
  phases : List WorkflowPhase
  gates : List ApprovalGateRow
  executions : List ScarCommandExecution
deriving DecidableEq, Repr

/-- The highest existing phase number (0 when no phase exists): the
`order_by(WorkflowPhase.phase_number.desc()).limit(1)` lookup followed by
`current_phase.phase_number + 1 if current_phase else 1` computes this
value plus one. -/
def maxPhaseNumber (phases : List WorkflowPhase) : Nat :=
  phases.foldr (fun p m => max p.phase_number m) 0

/-- `next((p for p in WORKFLOW_PHASES if p.number == next_phase_number), None)`,
over an arbitrary pipeline list. -/
def findConfig (cfgs : List PhaseConfig) (n : Nat) : Option PhaseConfig :=
  cfgs.find? (fun p => p.number == n)

/-- The environment one `advance_workflow` call runs in: the behaviour of
the SCAR side if a command is executed, and the strings the error
handlers interpolate. -/
structure AdvanceEnv where
  outcome : ScarOutcome
  baseUrl : String
  durationStr : String
deriving Repr

/-- `advance_workflow` (src/services/workflow_orchestrator.py, lines
182-295): compute the next phase number as highest + 1; with no config
for it, mark the project Completed (creating nothing); otherwise create
the phase row (status Pending), then either open an approval gate and
block the phase, or run the SCAR command and mark the phase Completed or
Failed from the result, or — with neither — leave the row as created.
The code passes `next_phase_config.approval_gate_type` to
`create_approval_gate`; in `WORKFLOW_PHASES` every approving phase has a
gate type, and the model defaults a missing one to `vision_doc`. -/
def advance_workflow (cfgs : List PhaseConfig) (env : AdvanceEnv) (st : OrchState) :
    OrchState × Bool × String :=
  match findConfig cfgs (maxPhaseNumber st.phases + 1) with
  | none =>
      ({ st with projectStatus := ProjectStatus.completed },
        true, "Workflow completed successfully!")
  | some cfg =>
      if cfg.requires_approval then
        ({ st with
            phases := st.phases ++
              [⟨cfg.number, cfg.name, cfg.description,
                cfg.scar_command.map ScarCommand.value, PhaseStatus.blocked, none⟩],
            gates := st.gates ++
              [⟨cfg.approval_gate_type.getD GateType.vision_doc,
                "Approve: " ++ cfg.name, GateStatus.pending⟩] },
          true, "Created approval gate for: " ++ cfg.name)
      else
        match cfg.scar_command with
        | some _ =>
            let er := execute_scar_command st.repoConfigured env.outcome env.baseUrl env.durationStr
            let newExecs := st.executions ++ (match er.1 with
              | some e => [e]
              | none => [])
            if er.2.success then
              ({ st with
                  phases := st.phases ++
                    [⟨cfg.number, cfg.name, cfg.description,
                      cfg.scar_command.map ScarCommand.value, PhaseStatus.completed, none⟩],
                  executions := newExecs },
                true, "Completed phase: " ++ cfg.name ++ "\n" ++ er.2.output)
            else
              ({ st with
                  phases := st.phases ++
                    [⟨cfg.number, cfg.name, cfg.description,
                      cfg.scar_command.map ScarCommand.value, PhaseStatus.failed, er.2.error⟩],
                  executions := newExecs },
                false, "Phase failed: " ++ er.2.error.getD "None")
        | none =>
            ({ st with
                phases := st.phases ++
                  [⟨cfg.number, cfg.name, cfg.description,
                    none, PhaseStatus.pending, none⟩] },
              true, "Advanced to phase: " ++ cfg.name)

/-- A sequence of `advance_workflow` calls, each with its own
environment, threading the state. -/
def advanceSeq (cfgs : List PhaseConfig) (envs : List AdvanceEnv) (st : OrchState) : OrchState :=
  match envs with
  | [] => st
  | e :: rest => advanceSeq cfgs rest (advance_workflow cfgs e st).1

/-- A project before any phase has been created. -/
def initState (ps : ProjectStatus) (repoConfigured : Bool) : OrchState :=
  ⟨ps, repoConfigured, [], [], []⟩

/-- The final phase of the standard pipeline, completed. -/
def examplePhase5 : WorkflowPhase :=
  ⟨5, "Validate & Test", "Run tests and validate implementation",
    some "validate", PhaseStatus.completed, none⟩

/-- A project whose five standard phases are exhausted (modelled by its
highest phase row, number 5). -/
def exampleDoneState : OrchState :=
  ⟨ProjectStatus.in_progress, true, [examplePhase5], [], []⟩

/-- An environment in which the SCAR call would succeed with no
messages. -/
def exampleEnv : AdvanceEnv := ⟨ScarOutcome.ok [], "http://scar", "1.0"⟩

/-- Phase 1 of the standard pipeline as `advance` leaves it: Blocked on
its Pending approval gate. -/
def exampleBlockedPhase : WorkflowPhase :=
  ⟨1, "Vision Document Review", "Review and approve the generated vision document",
    none, PhaseStatus.blocked, none⟩

/-- A project whose latest (only) phase is Blocked, its gate still
Pending. -/
def exampleBlockedState : OrchState :=
  ⟨ProjectStatus.planning, true, [exampleBlockedPhase],
    [⟨GateType.vision_doc, "Approve: Vision Document Review", GateStatus.pending⟩], []⟩

/-- Phase config number 2 of `WORKFLOW_PHASES`. -/
def examplePrimeConfig : PhaseConfig :=
  ⟨2, "Prime Context", "Load complete project context into SCAR",
    some ScarCommand.prime, false, none⟩

/-- A pipeline whose single phase has no approval gate and no command. -/
def exampleNoopConfig : PhaseConfig :=
  ⟨1, "Noop", "a phase with no gate and no command", none, false, none⟩

/-- The one-entry pipeline `[exampleNoopConfig]`. -/
def exampleNoopPipeline : List PhaseConfig := [exampleNoopConfig]

/-- An environment whose SCAR call fails to connect. -/
def exampleFailEnv : AdvanceEnv :=
  ⟨ScarOutcome.connectError "boom", "http://scar", "1.0"⟩

theorem containsSub_iff (needle haystack : List Char) :
    containsSub needle haystack = true ↔ needle <:+: haystack := by
  induction haystack with
  | nil =>
    simp only [containsSub, List.isPrefixOf_iff_prefix, List.prefix_nil, List.infix_nil]
  | cons b bs ih =>
    simp only [containsSub, Bool.or_eq_true, List.isPrefixOf_iff_prefix, ih,
      List.infix_cons_iff]

/-- C1 (counterexample): the message "not about that" contains the spec's
boundary phrase `not about that`, so the claim says `shouldSwitch` returns
true regardless of elapsed time; the code's phrase list does not contain
it, and with an elapsed gap of 100 ≤ 3600 seconds the code returns false. -/
theorem C1_phrase_list_counterexample :
    shouldSwitch_specVersion "not about that" (some 0) 100 = true ∧
    should_create_new_topic "not about that" (some 0) 100 = false := by
  constructor <;> decide

/-- C1 (amended): `should_create_new_topic` returns true exactly when the
lowercased message contains one of the code's nine phrases ("new topic",
"different topic", "let's discuss", "lets discuss", "switching to",
"moving on to", "but we weren't discussing", "but we werent discussing",
"we were talking about") as a substring, or — when no phrase is present —
when the elapsed time since the last message in the active topic is
strictly greater than 3600 seconds; it returns false for a gap of at most
3600 seconds with no phrase, and independent of elapsed time a phrase
forces true. -/
theorem C1_should_create_new_topic_characterization (msg : String)
    (last : Option Int) (now : Int) :
    should_create_new_topic msg last now = true ↔
      ((∃ p ∈ topic_switch_phrases, p.data <:+: lowerChars msg) ∨
        (∃ t, last = some t ∧ now - t > 3600)) := by
  unfold should_create_new_topic
  by_cases h : topic_switch_phrases.any
      (fun p => containsSub p.data (lowerChars msg)) = true
  · simp only [h, if_pos]
    simp only [List.any_eq_true, containsSub_iff] at h
    simp [h]
  · simp only [h]
    rw [if_neg (by simp [h])]
    have hnot : ¬ ∃ p ∈ topic_switch_phrases, p.data <:+: lowerChars msg := by
      simpa only [List.any_eq_true, containsSub_iff] using h
    cases last with
    | none => simp [hnot]
    | some t =>
      simp only [hnot, false_or]
      constructor
      · intro hd
        exact ⟨t, rfl, by simpa using hd⟩
      · rintro ⟨t', ht', hgt⟩
        cases Option.some.injEq t t' ▸ ht' with
        | refl => simpa using hgt

theorem sortByTimestamp_sorted (l : List ConversationMessage) :
    List.Pairwise (fun a b : ConversationMessage => a.timestamp ≤ b.timestamp)
      (sortByTimestamp l) := by
  have h := @List.sorted_mergeSort ConversationMessage
    (fun a b : ConversationMessage => decide (a.timestamp ≤ b.timestamp))
    (fun a b c hab hbc => by
      simp only [decide_eq_true_eq] at hab hbc ⊢
      omega)
    (fun a b => by
      simpa only [Bool.or_eq_true, decide_eq_true_eq] using
        Int.le_total a.timestamp b.timestamp)
    l
  exact h.imp (fun hab => by simpa using hab)

theorem sortByTimestamp_mem (l : List ConversationMessage) (m : ConversationMessage) :
    m ∈ sortByTimestamp l ↔ m ∈ l :=
  (List.mergeSort_perm l _).mem_iff

/-- C7: with `activeTopicOnly = true` (and no explicit topic filter), the
history returned contains only messages whose topic id equals the id of
the currently active topic, is ordered by timestamp ascending, and has at
most `limit` entries; in particular no message of an ended (non-active)
topic is ever returned. -/
theorem C7_history_active_topic_only (msgs : List ConversationMessage)
    (topics : List ConversationTopic) (project_id : Nat) (limit : Nat) :
    (∀ m ∈ get_conversation_history msgs topics project_id limit none true,
        ∃ t, get_active_topic topics project_id = some t ∧ m.topic_id = some t.id) ∧
    List.Pairwise (fun a b : ConversationMessage => a.timestamp ≤ b.timestamp)
      (get_conversation_history msgs topics project_id limit none true) ∧
    (get_conversation_history msgs topics project_id limit none true).length ≤ limit := by
  unfold get_conversation_history
  cases hat : get_active_topic topics project_id with
  | none =>
    refine ⟨fun m hm => absurd hm (by simp), ?_, ?_⟩ <;> simp
  | some t =>
    refine ⟨fun m hm => ⟨t, rfl, ?_⟩, ?_, ?_⟩
    · have hm' : m ∈ sortByTimestamp
          ((msgs.filter (fun m => m.project_id == project_id)).filter
            (fun m => m.topic_id == some t.id)) := by
        exact List.take_subset _ _ (by simpa using hm)
      have := (sortByTimestamp_mem _ m).mp hm'
      have := List.mem_filter.mp this
      simpa using this.2
    · simpa using (sortByTimestamp_sorted _).sublist (List.take_sublist _ _)
    · simp only [if_pos]
      calc (((sortByTimestamp _).take limit)).length ≤ limit := by
            simp [List.length_take]

/-- C3: once a Pending gate has been resolved a first time — approved or
rejected — every later resolution attempt on it fails: `approve_gate` and
`reject_gate` raise (returning the error and writing nothing), and
`handle_approval_response` returns success `false`; in each case the
stored status, notes and resolution timestamp are exactly those left by
the first resolution. -/
theorem C3_gate_resolution_is_once (g : GateState) (h : g.status = GateStatus.pending)
    (now now2 : Int) (notes notes2 : Option String) (reason reason2 : String)
    (g1 : GateState)
    (hres : g1 = (approve_gate now notes g).gate ∨ g1 = (reject_gate now reason g).gate) :
    (approve_gate now2 notes2 g1 = { gate := g1, error := some ("Gate already " ++ g1.status.value) }) ∧
    (reject_gate now2 reason2 g1 = { gate := g1, error := some ("Gate already " ++ g1.status.value) }) ∧
    (∀ approved cont, handle_approval_response g1 approved now2 notes2 cont =
      ((false, "Gate already " ++ g1.status.value), g1)) := by
  have hst : g1.status ≠ GateStatus.pending := by
    rcases hres with h1 | h1 <;>
      simp [h1, approve_gate, reject_gate, h]
  refine ⟨?_, ?_, fun approved cont => ?_⟩
  · simp [approve_gate, hst]
  · simp [reject_gate, hst]
  · simp [handle_approval_response, hst]

/-- C3 witness: a concrete Pending gate approved at time 10; the second
approval, the second rejection and the orchestrator-level response all
fail and leave the row as the first approval wrote it. -/
theorem C3_gate_resolution_is_once_witness :
    (approve_gate 20 (some "again") exampleApprovedGate =
      ⟨exampleApprovedGate, some "Gate already APPROVED"⟩) ∧
    (reject_gate 20 "no" exampleApprovedGate =
      ⟨exampleApprovedGate, some "Gate already APPROVED"⟩) ∧
    (∀ approved cont, handle_approval_response exampleApprovedGate approved 20 (some "again") cont =
      ((false, "Gate already APPROVED"), exampleApprovedGate)) := by
  have h := C3_gate_resolution_is_once examplePendingGate rfl 10 20
    (some "ok") (some "again") "r" "no" exampleApprovedGate (Or.inl (by decide))
  simpa using h

/-! ## Theorems on the poll loop (C4, C5) -/

/-- C4: the poll loop is exactly the spec's debounce: each non-deadline
poll sends `(previousCount, stableStreak)` through `streakStep` (reset to
0 and update on growth, increment otherwise) and declares completion once
the streak reaches 2; the count trace [1, 1, 1] at a 2-second interval
completes after the 3rd poll for every timeout of at least 6 seconds, and
a trace that is empty on the first poll accumulates the streak normally,
completing after the 2nd poll. -/
theorem C4_wait_for_completion_quiescence (timeout : Nat) (hT : 6 ≤ timeout) :
    (∀ counts pollInterval fuel k prev stable,
      wait_go counts timeout pollInterval (fuel + 1) k prev stable =
        if timeout ≤ k * pollInterval then
          WaitResult.timedOut (k * pollInterval)
        else if 2 ≤ (streakStep prev stable (counts k)).2 then
          WaitResult.completed (k + 1) (counts k)
        else
          wait_go counts timeout pollInterval fuel (k + 1)
            (streakStep prev stable (counts k)).1 (streakStep prev stable (counts k)).2) ∧
    wait_for_completion (fun _ => 1) timeout 2 = WaitResult.completed 3 1 ∧
    wait_for_completion (fun _ => 0) timeout 2 = WaitResult.completed 2 0 := by
  have step : ∀ (counts : Nat → Nat) pollInterval fuel k prev stable,
      wait_go counts timeout pollInterval (fuel + 1) k prev stable =
        if timeout ≤ k * pollInterval then
          WaitResult.timedOut (k * pollInterval)
        else if 2 ≤ (streakStep prev stable (counts k)).2 then
          WaitResult.completed (k + 1) (counts k)
        else
          wait_go counts timeout pollInterval fuel (k + 1)
            (streakStep prev stable (counts k)).1 (streakStep prev stable (counts k)).2 := by
    intro counts pollInterval fuel k prev stable
    by_cases hdl : timeout ≤ k * pollInterval
    · simp [wait_go, hdl]
    · by_cases hc : prev < counts k
      · simp [wait_go, streakStep, hdl, hc]
      · by_cases hs : 2 ≤ stable + 1
        · simp [wait_go, streakStep, hdl, hc, hs]
        · simp [wait_go, streakStep, hdl, hc, hs]
  refine ⟨step, ?_, ?_⟩
  · have hfuel : timeout / 2 + 2 = (timeout / 2 - 1) + 3 := by omega
    unfold wait_for_completion
    rw [hfuel]
    rw [step, if_neg (by omega)]
    rw [show streakStep 0 0 1 = (1, 0) from rfl]
    simp only []
    rw [if_neg (by omega)]
    rw [step, if_neg (by omega)]
    rw [show streakStep 1 0 1 = (1, 1) from rfl]
    simp only []
    rw [if_neg (by omega)]
    rw [step, if_neg (by omega)]
    rw [show streakStep 1 1 1 = (1, 2) from rfl]
    simp only []
    rw [if_pos (by omega)]
  · have hfuel : timeout / 2 + 2 = (timeout / 2) + 2 := rfl
    unfold wait_for_completion
    rw [show timeout / 2 + 2 = (timeout / 2) + 1 + 1 from by omega]
    rw [step, if_neg (by omega)]
    rw [show streakStep 0 0 0 = (0, 1) from rfl]
    simp only []
    rw [if_neg (by omega)]
    rw [step, if_neg (by omega)]
    rw [show streakStep 0 1 0 = (0, 2) from rfl]
    simp only []
    rw [if_pos (by omega)]

/-- C4 witness: the two simulated traces at the smallest admissible
timeout of 6 seconds. -/
theorem C4_wait_for_completion_quiescence_witness :
    wait_for_completion (fun _ => 1) 6 2 = WaitResult.completed 3 1 ∧
    wait_for_completion (fun _ => 0) 6 2 = WaitResult.completed 2 0 :=
  ⟨(C4_wait_for_completion_quiescence 6 (by norm_num)).2.1,
   (C4_wait_for_completion_quiescence 6 (by norm_num)).2.2⟩

theorem wait_go_timesOut_of_growing (counts : Nat → Nat) (timeout pollInterval : Nat)
    (hmono : ∀ j, counts j < counts (j + 1)) :
    ∀ fuel k prev stable, timeout ≤ (k + fuel) * pollInterval →
      k * pollInterval < timeout + pollInterval → prev < counts k →
      ∃ e, wait_go counts timeout pollInterval fuel k prev stable = WaitResult.timedOut e ∧
        timeout ≤ e ∧ e < timeout + pollInterval := by
  intro fuel
  induction fuel with
  | zero =>
    intro k prev stable hfuel hbound _
    exact ⟨k * pollInterval, rfl, by simpa using hfuel, hbound⟩
  | succ fuel ih =>
    intro k prev stable hfuel hbound hprev
    by_cases hdl : timeout ≤ k * pollInterval
    · exact ⟨k * pollInterval, by simp [wait_go, hdl], hdl, hbound⟩
    · have hstep : wait_go counts timeout pollInterval (fuel + 1) k prev stable =
          wait_go counts timeout pollInterval fuel (k + 1) (counts k) 0 := by
        simp [wait_go, hdl, hprev]
      have hfuel' : timeout ≤ (k + 1 + fuel) * pollInterval := by
        have : k + 1 + fuel = k + (fuel + 1) := by omega
        rw [this]
        exact hfuel
      have hbound' : (k + 1) * pollInterval < timeout + pollInterval := by
        have hk : k * pollInterval < timeout := Nat.lt_of_not_le hdl
        have : (k + 1) * pollInterval = k * pollInterval + pollInterval := by ring
        omega
      obtain ⟨e, he, h1, h2⟩ := ih (k + 1) (counts k) 0 hfuel' hbound' (hmono k)
      exact ⟨e, hstep ▸ he, h1, h2⟩

theorem timeout_msg_ne_connectivity_msg (baseUrl durationStr detail : String) :
    timeout_error_msg durationStr detail ≠ connectivity_error_msg baseUrl := by
  intro h
  have hd : "SCAR command timed out after ".data ++
        (durationStr.data ++ ("s: ".data ++ detail.data)) =
      "SCAR is not available. Ensure SCAR is running at ".data ++ baseUrl.data := by
    simpa [timeout_error_msg, connectivity_error_msg, String.data_append,
      List.append_assoc] using congrArg String.data h
  have h7 := congrArg (List.take 7) hd
  rw [List.take_append_of_le_length (by decide),
    List.take_append_of_le_length (by decide)] at h7
  exact absurd h7 (by decide)

/-- C5: when the polled message count strictly grows on every poll
(starting above the initial baseline of 0) quiescence is never reached
and `wait_for_completion` raises `TimeoutError` at the first poll on or
after the configured deadline — the reported elapsed time is at least
`timeout` and less than `timeout + pollInterval`, so not materially
before the deadline — and the executor classifies this failure distinctly
from a connectivity failure: the Failed rows' error texts always
differ. -/
theorem C5_growing_counts_time_out (counts : Nat → Nat) (timeout pollInterval : Nat)
    (hP : 0 < pollInterval) (h0 : 0 < counts 0)
    (hmono : ∀ j, counts j < counts (j + 1)) :
    (∃ e, wait_for_completion counts timeout pollInterval = WaitResult.timedOut e ∧
      timeout ≤ e ∧ e < timeout + pollInterval) ∧
    (∀ baseUrl durationStr detail detail2,
      (execute_scar_command true (ScarOutcome.timeoutError detail) baseUrl durationStr).2.error ≠
      (execute_scar_command true (ScarOutcome.connectError detail2) baseUrl durationStr).2.error) := by
  constructor
  · have hdm := Nat.div_add_mod timeout pollInterval
    have hmod := Nat.mod_lt timeout hP
    have hexp : (timeout / pollInterval + 2) * pollInterval =
        pollInterval * (timeout / pollInterval) + 2 * pollInterval := by ring
    have hfuel : timeout ≤ (0 + (timeout / pollInterval + 2)) * pollInterval := by
      rw [Nat.zero_add, hexp]
      omega
    have hbound : 0 * pollInterval < timeout + pollInterval := by
      simpa using Nat.lt_of_lt_of_le hP (Nat.le_add_left _ _)
    exact wait_go_timesOut_of_growing counts timeout pollInterval hmono
      (timeout / pollInterval + 2) 0 0 0 hfuel hbound h0
  · intro baseUrl durationStr detail detail2
    simp only [execute_scar_command]
    simpa using timeout_msg_ne_connectivity_msg baseUrl durationStr detail

/-- C5 witness: the trace counting 1, 2, 3, … messages with a 5-second
timeout and the 2-second interval times out at elapsed 6 seconds, within
one interval of the deadline. -/
theorem C5_growing_counts_time_out_witness :
    (∃ e, wait_for_completion (fun k => k + 1) 5 2 = WaitResult.timedOut e ∧
      5 ≤ e ∧ e < 5 + 2) ∧
    (∀ baseUrl durationStr detail detail2,
      (execute_scar_command true (ScarOutcome.timeoutError detail) baseUrl durationStr).2.error ≠
      (execute_scar_command true (ScarOutcome.connectError detail2) baseUrl durationStr).2.error) :=
  C5_growing_counts_time_out (fun k => k + 1) 5 2 (by norm_num) (by norm_num)
    (fun j => by simp)

/-! ## Theorems on the phase state machine (C2, C6, C8, C9, C10) -/

theorem findConfig_number (cfgs : List PhaseConfig) (n : Nat) (cfg : PhaseConfig)
    (h : findConfig cfgs n = some cfg) : cfg.number = n := by
  unfold findConfig at h
  simpa using List.find?_some h

theorem advance_workflow_no_config (cfgs : List PhaseConfig) (env : AdvanceEnv)
    (st : OrchState) (h : findConfig cfgs (maxPhaseNumber st.phases + 1) = none) :
    advance_workflow cfgs env st =
      ({ st with projectStatus := ProjectStatus.completed },
        true, "Workflow completed successfully!") := by
  unfold advance_workflow
  rw [h]

theorem advance_workflow_appends (cfgs : List PhaseConfig) (env : AdvanceEnv)
    (st : OrchState) (cfg : PhaseConfig)
    (h : findConfig cfgs (maxPhaseNumber st.phases + 1) = some cfg) :
    ∃ p, (advance_workflow cfgs env st).1.phases = st.phases ++ [p] ∧
      p.phase_number = maxPhaseNumber st.phases + 1 := by
  have hn := findConfig_number _ _ _ h
  unfold advance_workflow
  rw [h]
  by_cases ha : cfg.requires_approval
  · exact ⟨⟨cfg.number, cfg.name, cfg.description,
      Option.map ScarCommand.value cfg.scar_command, PhaseStatus.blocked, none⟩,
      by simp [ha], hn⟩
  · cases hsc : cfg.scar_command with
    | none =>
      exact ⟨⟨cfg.number, cfg.name, cfg.description, none, PhaseStatus.pending, none⟩,
        by simp [ha, hsc], hn⟩
    | some c =>
      by_cases hs :
          (execute_scar_command st.repoConfigured env.outcome env.baseUrl env.durationStr).2.success
      · exact ⟨⟨cfg.number, cfg.name, cfg.description,
          Option.map ScarCommand.value cfg.scar_command, PhaseStatus.completed, none⟩,
          by simp [ha, hsc, hs], hn⟩
      · exact ⟨⟨cfg.number, cfg.name, cfg.description,
          Option.map ScarCommand.value cfg.scar_command, PhaseStatus.failed,
          (execute_scar_command st.repoConfigured env.outcome env.baseUrl env.durationStr).2.error⟩,
          by simp [ha, hsc, hs], hn⟩

theorem advance_workflow_phases_shape (cfgs : List PhaseConfig) (env : AdvanceEnv)
    (st : OrchState) :
    (advance_workflow cfgs env st).1.phases = st.phases ∨
    ∃ p, (advance_workflow cfgs env st).1.phases = st.phases ++ [p] := by
  cases h : findConfig cfgs (maxPhaseNumber st.phases + 1) with
  | none => exact Or.inl (by rw [advance_workflow_no_config cfgs env st h])
  | some cfg =>
    obtain ⟨p, hp, _⟩ := advance_workflow_appends cfgs env st cfg h
    exact Or.inr ⟨p, hp⟩

theorem maxPhaseNumber_eq_foldr (phases : List WorkflowPhase) :
    maxPhaseNumber phases = (phases.map (fun p => p.phase_number)).foldr max 0 := by
  unfold maxPhaseNumber
  rw [List.foldr_map]

theorem foldr_max_range' (s n : Nat) :
    (List.range' s n).foldr max 0 = if n = 0 then 0 else s + n - 1 := by
  induction n generalizing s with
  | zero => rfl
  | succ n ih =>
    rw [List.range'_succ]
    simp only [List.foldr_cons, ih]
    by_cases h : n = 0
    · simp [h]
    · rw [if_neg h, if_neg (Nat.succ_ne_zero n)]
      omega

theorem maxPhaseNumber_of_range (st : OrchState)
    (h : st.phases.map (fun p => p.phase_number) = List.range' 1 st.phases.length) :
    maxPhaseNumber st.phases = st.phases.length := by
  rw [maxPhaseNumber_eq_foldr, h, foldr_max_range']
  by_cases hl : st.phases.length = 0
  · simp [hl]
  · rw [if_neg hl]
    omega

theorem advance_preserves_numbering (cfgs : List PhaseConfig) (env : AdvanceEnv)
    (st : OrchState)
    (h : st.phases.map (fun p => p.phase_number) = List.range' 1 st.phases.length) :
    (advance_workflow cfgs env st).1.phases.map (fun p => p.phase_number) =
      List.range' 1 (advance_workflow cfgs env st).1.phases.length := by
  have hmax := maxPhaseNumber_of_range st h
  cases hsh : findConfig cfgs (maxPhaseNumber st.phases + 1) with
  | none =>
    rw [advance_workflow_no_config cfgs env st hsh]
    simpa using h
  | some cfg =>
    obtain ⟨p, hp, hnum⟩ := advance_workflow_appends cfgs env st cfg hsh
    rw [hp]
    simp only [List.map_append, List.length_append, List.map_cons, List.map_nil,
      List.length_cons, List.length_nil]
    rw [h, hnum, hmax]
    rw [show st.phases.length + (0 + 1) = st.phases.length + 1 from by omega,
      List.range'_concat]
    simp [Nat.add_comm]

/-- C8: starting from a project with no phases, any sequence of `advance`
calls (under any pipeline, with any command outcomes) leaves phase
numbers equal to `1, 2, …, k` in creation order — strictly increasing, no
gaps, no duplicates, starting at 1 — and every single `advance` call
either leaves the phase rows untouched or appends exactly one new row at
the end, never renumbering an existing one. -/
theorem C8_phase_numbers_strictly_increase (cfgs : List PhaseConfig)
    (envs : List AdvanceEnv) (ps : ProjectStatus) (repo : Bool) :
    ((advanceSeq cfgs envs (initState ps repo)).phases.map (fun p => p.phase_number) =
      List.range' 1 (advanceSeq cfgs envs (initState ps repo)).phases.length) ∧
    (∀ env st, (advance_workflow cfgs env st).1.phases = st.phases ∨
      ∃ p, (advance_workflow cfgs env st).1.phases = st.phases ++ [p]) := by
  constructor
  · have main : ∀ (l : List AdvanceEnv) (st : OrchState),
        st.phases.map (fun p => p.phase_number) = List.range' 1 st.phases.length →
        (advanceSeq cfgs l st).phases.map (fun p => p.phase_number) =
          List.range' 1 (advanceSeq cfgs l st).phases.length := by
      intro l
      induction l with
      | nil => intro st h; simpa [advanceSeq] using h
      | cons e rest ih =>
        intro st h
        exact ih _ (advance_preserves_numbering cfgs e st h)
    exact main envs _ (by simp [initState])
  · exact fun env st => advance_workflow_phases_shape cfgs env st

/-- C9: when the pipeline has no config for highest-existing-number + 1,
`advance` sets the project status to Completed, returns success with the
completion message and creates no phase row; and any number of further
`advance` calls leave the completed state — in particular its phase
rows — entirely unchanged. -/
theorem C9_workflow_completion_is_terminal (cfgs : List PhaseConfig) (env : AdvanceEnv)
    (envs : List AdvanceEnv) (st : OrchState)
    (h : findConfig cfgs (maxPhaseNumber st.phases + 1) = none) :
    (advance_workflow cfgs env st =
      ({ st with projectStatus := ProjectStatus.completed },
        true, "Workflow completed successfully!")) ∧
    (advanceSeq cfgs envs { st with projectStatus := ProjectStatus.completed } =
      { st with projectStatus := ProjectStatus.completed }) := by
  refine ⟨advance_workflow_no_config cfgs env st h, ?_⟩
  induction envs with
  | nil => rfl
  | cons e rest ih =>
    have hstep := advance_workflow_no_config cfgs e
      { st with projectStatus := ProjectStatus.completed } h
    rw [advanceSeq, hstep]
    simpa using ih

/-- C9 witness: a project at phase 5 of `WORKFLOW_PHASES`; `advance`
completes the project and two further calls change nothing. -/
theorem C9_workflow_completion_is_terminal_witness :
    (advance_workflow WORKFLOW_PHASES exampleEnv exampleDoneState =
      ({ exampleDoneState with projectStatus := ProjectStatus.completed },
        true, "Workflow completed successfully!")) ∧
    (advanceSeq WORKFLOW_PHASES [exampleEnv, exampleEnv]
        { exampleDoneState with projectStatus := ProjectStatus.completed } =
      { exampleDoneState with projectStatus := ProjectStatus.completed }) :=
  C9_workflow_completion_is_terminal WORKFLOW_PHASES exampleEnv [exampleEnv, exampleEnv]
    exampleDoneState (by decide)

/-- C10: `advance` derives the next phase number from the highest
existing number alone; when the latest phase is Blocked or Failed and a
config for the next number exists, a new phase with that next number is
created anyway — the unresolved gate or recorded failure is bypassed, the
earlier rows staying as they were. -/
theorem C10_advance_ignores_latest_phase_status (cfgs : List PhaseConfig)
    (env : AdvanceEnv) (st : OrchState) (cfg : PhaseConfig) (p : WorkflowPhase)
    (_hlast : st.phases.getLast? = some p)
    (_hstatus : p.status = PhaseStatus.blocked ∨ p.status = PhaseStatus.failed)
    (hcfg : findConfig cfgs (maxPhaseNumber st.phases + 1) = some cfg) :
    ∃ q, (advance_workflow cfgs env st).1.phases = st.phases ++ [q] ∧
      q.phase_number = maxPhaseNumber st.phases + 1 :=
  advance_workflow_appends cfgs env st cfg hcfg

/-- C10 witness: with phase 1 Blocked (gate Pending), `advance` under the
standard pipeline creates phase 2 regardless. -/
theorem C10_advance_ignores_latest_phase_status_witness :
    ∃ q, (advance_workflow WORKFLOW_PHASES exampleEnv exampleBlockedState).1.phases =
        exampleBlockedState.phases ++ [q] ∧
      q.phase_number = maxPhaseNumber exampleBlockedState.phases + 1 :=
  C10_advance_ignores_latest_phase_status WORKFLOW_PHASES exampleEnv exampleBlockedState
    examplePrimeConfig exampleBlockedPhase (by decide) (Or.inl (by decide)) (by decide)

/-- C2 (counterexample): for a next phase config with `requiresApproval`
false and no command, `advance` returns success but the created
`WorkflowPhase` is left in status Pending — it is not marked Completed as
the claim states. -/
theorem C2_no_gate_no_command_counterexample :
    ((advance_workflow exampleNoopPipeline exampleEnv
        (initState ProjectStatus.planning true)).1.phases.map (fun p => p.status) =
      [PhaseStatus.pending]) ∧
    PhaseStatus.pending ≠ PhaseStatus.completed ∧
    (advance_workflow exampleNoopPipeline exampleEnv
        (initState ProjectStatus.planning true)).2 =
      (true, "Advanced to phase: Noop") := by
  refine ⟨by decide, by decide, by decide⟩

/-- C2 (amended): for a next phase config with `requiresApproval` false
and no command, `advance` creates the new `WorkflowPhase`, leaves it in
status Pending (never marking it Completed), and returns success = true
with the message "Advanced to phase: <name>". -/
theorem C2_no_gate_no_command_leaves_pending (cfgs : List PhaseConfig)
    (env : AdvanceEnv) (st : OrchState) (cfg : PhaseConfig)
    (hcfg : findConfig cfgs (maxPhaseNumber st.phases + 1) = some cfg)
    (hna : cfg.requires_approval = false) (hnc : cfg.scar_command = none) :
    (advance_workflow cfgs env st).1.phases =
      st.phases ++ [⟨cfg.number, cfg.name, cfg.description, none, PhaseStatus.pending, none⟩] ∧
    (advance_workflow cfgs env st).2 = (true, "Advanced to phase: " ++ cfg.name) := by
  unfold advance_workflow
  rw [hcfg]
  simp [hna, hnc]

/-- C2 witness: the amended claim evaluated on the one-entry no-op
pipeline from a fresh project. -/
theorem C2_no_gate_no_command_leaves_pending_witness :
    (advance_workflow exampleNoopPipeline exampleEnv
        (initState ProjectStatus.planning true)).1.phases =
      (initState ProjectStatus.planning true).phases ++
        [⟨exampleNoopConfig.number, exampleNoopConfig.name, exampleNoopConfig.description,
          none, PhaseStatus.pending, none⟩] ∧
    (advance_workflow exampleNoopPipeline exampleEnv
        (initState ProjectStatus.planning true)).2 =
      (true, "Advanced to phase: " ++ exampleNoopConfig.name) :=
  C2_no_gate_no_command_leaves_pending exampleNoopPipeline exampleEnv
    (initState ProjectStatus.planning true) exampleNoopConfig (by decide) rfl rfl

/-- C6: for every failure inside command execution — connection error,
timeout, or any other exception — `execute_scar_command` stores a
CommandExecution row in terminal status Failed carrying the handler's
error text and returns success = false with that error; `advance` then
records the new phase as Failed with the same error and returns
`(false, "Phase failed: <error>")`, appending exactly one phase row and
one execution row and touching nothing else — no retry, no further
phase. -/
theorem C6_failure_never_absorbed (cfgs : List PhaseConfig) (env : AdvanceEnv)
    (st : OrchState) (cfg : PhaseConfig) (c : ScarCommand)
    (hrepo : st.repoConfigured = true)
    (hcfg : findConfig cfgs (maxPhaseNumber st.phases + 1) = some cfg)
    (hna : cfg.requires_approval = false) (hcmd : cfg.scar_command = some c)
    (hfail : (∃ d, env.outcome = ScarOutcome.connectError d) ∨
      (∃ d, env.outcome = ScarOutcome.timeoutError d) ∨
      (∃ d, env.outcome = ScarOutcome.otherError d)) :
    ∃ err execRec,
      execute_scar_command st.repoConfigured env.outcome env.baseUrl env.durationStr =
        (some execRec, ⟨false, "", some err⟩) ∧
      execRec.status = ExecutionStatus.failed ∧
      execRec.error = some err ∧
      (advance_workflow cfgs env st).1.phases =
        st.phases ++ [⟨cfg.number, cfg.name, cfg.description,
          Option.map ScarCommand.value cfg.scar_command, PhaseStatus.failed, some err⟩] ∧
      (advance_workflow cfgs env st).1.executions = st.executions ++ [execRec] ∧
      (advance_workflow cfgs env st).2 = (false, "Phase failed: " ++ err) := by
  have key : ∀ err : String,
      execute_scar_command st.repoConfigured env.outcome env.baseUrl env.durationStr =
        (some ⟨ExecutionStatus.failed, none, some err, true⟩, ⟨false, "", some err⟩) →
      ∃ err' execRec,
        execute_scar_command st.repoConfigured env.outcome env.baseUrl env.durationStr =
          (some execRec, ⟨false, "", some err'⟩) ∧
        execRec.status = ExecutionStatus.failed ∧
        execRec.error = some err' ∧
        (advance_workflow cfgs env st).1.phases =
          st.phases ++ [⟨cfg.number, cfg.name, cfg.description,
            Option.map ScarCommand.value cfg.scar_command, PhaseStatus.failed, some err'⟩] ∧
        (advance_workflow cfgs env st).1.executions = st.executions ++ [execRec] ∧
        (advance_workflow cfgs env st).2 = (false, "Phase failed: " ++ err') := by
    intro err hexec
    refine ⟨err, ⟨ExecutionStatus.failed, none, some err, true⟩, hexec, rfl, rfl, ?_, ?_, ?_⟩ <;>
      · unfold advance_workflow
        rw [hcfg]
        simp [hna, hcmd, hexec]
  rcases hfail with ⟨d, hd⟩ | ⟨d, hd⟩ | ⟨d, hd⟩
  · exact key (connectivity_error_msg env.baseUrl)
      (by rw [hd]; simp [execute_scar_command, hrepo])
  · exact key (timeout_error_msg env.durationStr d)
      (by rw [hd]; simp [execute_scar_command, hrepo])
  · exact key (generic_error_msg d)
      (by rw [hd]; simp [execute_scar_command, hrepo])

/-- C6 witness: with phase 1 done (Blocked state reused as a phase-1 row)
the standard pipeline's phase 2 runs `prime`; a connection failure is
recorded as a Failed execution and a Failed phase and returned as
failure. -/
theorem C6_failure_never_absorbed_witness :
    ∃ err execRec,
      execute_scar_command exampleBlockedState.repoConfigured exampleFailEnv.outcome
          exampleFailEnv.baseUrl exampleFailEnv.durationStr =
        (some execRec, ⟨false, "", some err⟩) ∧
      execRec.status = ExecutionStatus.failed ∧
      execRec.error = some err ∧
      (advance_workflow WORKFLOW_PHASES exampleFailEnv exampleBlockedState).1.phases =
        exampleBlockedState.phases ++
          [⟨examplePrimeConfig.number, examplePrimeConfig.name, examplePrimeConfig.description,
            Option.map ScarCommand.value examplePrimeConfig.scar_command,
            PhaseStatus.failed, some err⟩] ∧
      (advance_workflow WORKFLOW_PHASES exampleFailEnv exampleBlockedState).1.executions =
        exampleBlockedState.executions ++ [execRec] ∧
      (advance_workflow WORKFLOW_PHASES exampleFailEnv exampleBlockedState).2 =
        (false, "Phase failed: " ++ err) :=
  C6_failure_never_absorbed WORKFLOW_PHASES exampleFailEnv exampleBlockedState
    examplePrimeConfig ScarCommand.prime rfl (by decide) rfl rfl
    (Or.inl ⟨"boom", rfl⟩)

end ProjOrch
